import Mathlib

/-!
Verification of the apicentric black-box test harness.

Shallow embedding of `src/test_api.py` (HTTP operation executor, readiness
prober, the fixed stage sequence and its session-token state machine) and of
`src/webui/record_demo.py` (mock-route registrations and the interaction
driver's control flow).  Machine-level effects are made explicit: the network
is a function argument (`Net`), exceptions are `Except` values, the global
`TOKEN` variable is threaded state.
-/

/-! ## HTTP operation executor (`src/test_api.py`, `api_request`) -/

/-- The constant `API_URL = "http://localhost:8080"` from `test_api.py`. -/
def API_URL : String := "http://localhost:8080"

/-- Python truthiness of the global `TOKEN : Optional[str]`:
`None` and the empty string are falsy. -/
def truthy : Option String → Bool
  | none => false
  | some s => !s.isEmpty

/-- The slice of an HTTP response that the harness consumes:
`status_code`, whether `response.json()` parses (`jsonOk`), and the
`"token"` field of the parsed body (`token` models
`response.json().get("token")`, `none` when the field is absent). -/
structure Response where
  status_code : Nat
  token : Option String
  jsonOk : Bool
deriving Repr, DecidableEq

/-- The transport (the `requests` library): given method, url, headers and an
optional JSON body it either returns a response or raises (`Except.error`,
modelling connection refused / timeout / DNS failure). -/
abbrev Net := String → String → List (String × String) → Option String → Except String Response

/-- Header construction at the top of `api_request`: always
`Content-Type: application/json`; `Authorization: Bearer <TOKEN>` is added
only when `auth` is set and `TOKEN` is truthy. -/
def buildHeaders (tok : Option String) (auth : Bool) : List (String × String) :=
  if auth && truthy tok then
    [("Content-Type", "application/json"), ("Authorization", "Bearer " ++ tok.getD "")]
  else
    [("Content-Type", "application/json")]

/-- The `try:` block of `api_request`: dispatch on the method string; the
four supported methods call the transport (GET/DELETE send no body,
POST/PUT send `data`); any other method raises
`ValueError(f"Unsupported method: {method}")` — still inside the `try`. -/
def tryBlock (net : Net) (method url : String) (data : Option String)
    (headers : List (String × String)) : Except String Response :=
  if method = "GET" then net "GET" url headers none
  else if method = "POST" then net "POST" url headers data
  else if method = "PUT" then net "PUT" url headers data
  else if method = "DELETE" then net "DELETE" url headers none
  else Except.error ("Unsupported method: " ++ method)

/-- The function `api_request(method, endpoint, data, auth)`.  The `except Exception`
clause catches every exception raised in the `try` block (transport failures
and the unsupported-method `ValueError` alike), prints it and returns
`None`; so the caller always receives an `Option Response`, never an
exception. -/
def api_request (tok : Option String) (net : Net) (method endpoint : String)
    (data : Option String) (auth : Bool) : Option Response :=
  match tryBlock net method (API_URL ++ endpoint) data (buildHeaders tok auth) with
  | Except.ok r => some r
  | Except.error _ => none

/-- The callers' truthiness test `if response ...`: the outcome counts as ok
exactly when a response object was returned. -/
def outcome_ok (r : Option Response) : Bool :=
  r.isSome

/-! ## Readiness prober (`wait_for_server`) -/

/-- One probe of `GET /health` poll `i`: `some s` is a response with status
`s`, `none` is a raised transport exception (swallowed by the bare
`except`). -/
abbrev Probe := Nat → Option Nat

/-- The `for i in range(timeout)` loop of `wait_for_server`, returning the
result together with the number of poll attempts made: return `true` on the
first poll answering 200, `false` once the budget is exhausted. -/
def waitPolls (probe : Probe) : Nat → Nat → Bool × Nat
  | _, 0 => (false, 0)
  | i, fuel + 1 =>
    if probe i = some 200 then (true, 1)
    else
      let r := waitPolls probe (i + 1) fuel
      (r.1, r.2 + 1)

/-- The function `wait_for_server(timeout)`: the boolean result of the polling loop. -/
def wait_for_server (probe : Probe) (timeout : Nat) : Bool :=
  (waitPolls probe 0 timeout).1

/-! ## The fixed run sequence and its session state

`main` calls `test_health`, `test_authentication`, `test_service_management`,
`test_logs`, `test_recording`, `test_ai`, `test_codegen`, `test_config`,
`test_cleanup` in that order; each stage issues its `api_request` calls
unconditionally, in source order.  The only cross-operation state is the
global `TOKEN`, updated by register/login/refresh as below. -/

/-- How an operation's success branch touches the global `TOKEN`.
`setOn200or201` is register (`TOKEN = data.get("token")` when the status is
200 or 201), `setOn200` is login (same, status 200 only), `setIfTruthyOn200`
is refresh (`new_token = data.get("token"); if new_token: TOKEN = new_token`),
`keep` is every other operation. -/
inductive TokenUpdate where
  | keep
  | setOn200or201
  | setOn200
  | setIfTruthyOn200
deriving Repr, DecidableEq

/-- One `api_request` call of the fixed sequence: method, endpoint, whether
`auth=True` is passed, how the response updates `TOKEN`, and the accepted
status set of its `if response and response.status_code ...` test. -/
structure OpDescr where
  method : String
  endpoint : String
  auth : Bool
  update : TokenUpdate
  accept : List Nat
deriving Repr, DecidableEq

/-- The value of `TOKEN` after an operation processes its outcome (`none` outcome means
`api_request` returned `None`, which takes every success test to its else
branch, leaving `TOKEN` unchanged). -/
def step (tok : Option String) (op : OpDescr) (resp : Option Response) : Option String :=
  match op.update, resp with
  | TokenUpdate.setOn200or201, some r =>
      if r.status_code = 200 ∨ r.status_code = 201 then r.token else tok
  | TokenUpdate.setOn200, some r =>
      if r.status_code = 200 then r.token else tok
  | TokenUpdate.setIfTruthyOn200, some r =>
      if r.status_code = 200 then (if truthy r.token then r.token else tok) else tok
  | _, _ => tok

/-- What one operation leaves in the printed report: the request line, the
`Authorization` header that `api_request` sent (read off `buildHeaders`),
the outcome, and the `print_result` verdict (pass iff a response arrived
with a status in the accepted set). -/
structure OpRecord where
  method : String
  endpoint : String
  authHeader : Option String
  response : Option Response
  passed : Bool
deriving Repr, DecidableEq

/-- Build the record of one operation given the current `TOKEN` and the
operation's outcome. -/
def mkRecord (op : OpDescr) (tok : Option String) (resp : Option Response) : OpRecord :=
  { method := op.method
    endpoint := op.endpoint
    authHeader := (buildHeaders tok op.auth).lookup "Authorization"
    response := resp
    passed := match resp with
      | some r => decide (r.status_code ∈ op.accept)
      | none => false }

/-- The environment of one run: the outcome `server k` of the k-th
`api_request` issued (`none` = transport failure).  Indexing by position is
fully general: within any one concrete execution the k-th outcome is a fixed
value. -/
abbrev Server := Nat → Option Response

/-- Execute a list of operations in order, starting at request index `i`
with token `tok`, recording every operation (the straight-line trace; the
exception-raising refinement is `runExcFrom` below). -/
def runFrom (server : Server) : List OpDescr → Nat → Option String → List OpRecord
  | [], _, _ => []
  | op :: rest, i, tok =>
      mkRecord op tok (server i) :: runFrom server rest (i + 1) (step tok op (server i))

/-- The state `tokAt server j ops i tok`: the token held just before the j-th
operation of the list executes (clamped at the end of the list). -/
def tokAt (server : Server) : Nat → List OpDescr → Nat → Option String → Option String
  | 0, _, _, tok => tok
  | _ + 1, [], _, tok => tok
  | j + 1, op :: rest, i, tok => tokAt server j rest (i + 1) (step tok op (server i))

/-- The 18 `api_request` calls of one full run, in source order. -/
def healthOp : OpDescr := ⟨"GET", "/health", false, TokenUpdate.keep, [200]⟩

def registerOp : OpDescr := ⟨"POST", "/api/auth/register", false, TokenUpdate.setOn200or201, [200, 201]⟩

def loginOp : OpDescr := ⟨"POST", "/api/auth/login", false, TokenUpdate.setOn200, [200]⟩

def meOp : OpDescr := ⟨"GET", "/api/auth/me", true, TokenUpdate.keep, [200]⟩

def refreshOp : OpDescr := ⟨"POST", "/api/auth/refresh", true, TokenUpdate.setIfTruthyOn200, [200]⟩

def listServicesOp : OpDescr := ⟨"GET", "/api/services", true, TokenUpdate.keep, [200]⟩

def createServiceOp : OpDescr := ⟨"POST", "/api/services", true, TokenUpdate.keep, [200, 201]⟩

def getServiceOp : OpDescr := ⟨"GET", "/api/services/test-service", true, TokenUpdate.keep, [200]⟩

def startServiceOp : OpDescr := ⟨"POST", "/api/services/test-service/start", true, TokenUpdate.keep, [200]⟩

def statusServiceOp : OpDescr := ⟨"GET", "/api/services/test-service/status", true, TokenUpdate.keep, [200]⟩

def stopServiceOp : OpDescr := ⟨"POST", "/api/services/test-service/stop", true, TokenUpdate.keep, [200]⟩

def logsOp : OpDescr := ⟨"GET", "/api/logs", true, TokenUpdate.keep, [200]⟩

def recordingOp : OpDescr := ⟨"GET", "/api/recording/status", true, TokenUpdate.keep, [200]⟩

def aiConfigOp : OpDescr := ⟨"GET", "/api/ai/config", true, TokenUpdate.keep, [200]⟩

def codegenOp : OpDescr := ⟨"POST", "/api/codegen/typescript", true, TokenUpdate.keep, [200]⟩

def configOp : OpDescr := ⟨"GET", "/api/config", true, TokenUpdate.keep, [200]⟩

def deleteServiceOp : OpDescr := ⟨"DELETE", "/api/services/test-service", true, TokenUpdate.keep, [200]⟩

def logoutOp : OpDescr := ⟨"POST", "/api/auth/logout", true, TokenUpdate.keep, [200]⟩

/-- The fixed run sequence (stage order of `main`, operation order within
each stage as in the source). -/
def fullOps : List OpDescr :=
  [healthOp, registerOp, loginOp, meOp, refreshOp,
   listServicesOp, createServiceOp, getServiceOp, startServiceOp,
   statusServiceOp, stopServiceOp,
   logsOp, recordingOp, aiConfigOp, codegenOp, configOp,
   deleteServiceOp, logoutOp]

/-- The trace of one run: `TOKEN` starts as `None`, request indices from 0. -/
def theRun (server : Server) : List OpRecord :=
  runFrom server fullOps 0 none

/-- Whether processing an operation's outcome raises an uncaught exception:
every stage calls `response.json()` exactly when the status test passes, and
`.json()` raises on an unparseable body.  Nothing catches this in the stage
functions or in `main`. -/
def opRaises (op : OpDescr) (resp : Option Response) : Bool :=
  match resp with
  | some r => decide (r.status_code ∈ op.accept) && !r.jsonOk
  | none => false

/-- Exception-aware run: execute operations in order; the first operation
whose body processing raises terminates the run (its `print_result` line is
never reached, `TOKEN` is not updated).  Returns the records produced and
whether the run was terminated by an uncaught exception. -/
def runExcFrom (server : Server) : List OpDescr → Nat → Option String → List OpRecord × Bool
  | [], _, _ => ([], false)
  | op :: rest, i, tok =>
      if opRaises op (server i) then ([], true)
      else
        let r := runExcFrom server rest (i + 1) (step tok op (server i))
        (mkRecord op tok (server i) :: r.1, r.2)

/-- How the `test_api.py` process ends. -/
inductive MainOutcome where
  | exitNotReady
  | completed (records : List OpRecord)
  | crashed (records : List OpRecord)
deriving Repr, DecidableEq

/-- The function `main()`: wait for the server (default timeout 30); on failure
`sys.exit(1)` before any stage runs; otherwise run all stages, which either
complete or die on an uncaught body-processing exception. -/
def main_exc (probe : Probe) (server : Server) : MainOutcome :=
  if wait_for_server probe 30 then
    let r := runExcFrom server fullOps 0 none
    if r.2 then MainOutcome.crashed r.1 else MainOutcome.completed r.1
  else MainOutcome.exitNotReady

/-! ## Network interception router (`src/webui/record_demo.py`)

The rule list registered on the page context is in the source; the
URL-pattern dispatch engine itself is browser-automation library code that is
not under `src/`, so it is modelled from the spec (section 4.5). -/

/-- What a route handler does with an intercepted request: answer with a
canned status/body (`route.fulfill`) or let it proceed to the real network
(`route.continue_`, also the fate of a request matching no rule). -/
inductive RouteAction where
  | fulfill (status : Nat) (body : String)
  | continueReal
deriving Repr, DecidableEq

/-- Playwright-style glob match of a pattern against a URL, with explicit
fuel (structural recursion so that concrete matches evaluate in the kernel):
`**` matches any character sequence, `*` any sequence without `/`, other
characters literally. -/
def globMatchF : Nat → List Char → List Char → Bool
  | 0, _, _ => false
  | fuel + 1, p, s =>
    match p, s with
    | [], [] => true
    | [], _ :: _ => false
    | '*' :: '*' :: q, _ =>
      globMatchF fuel q s
        || (match s with
            | [] => false
            | _ :: rest => globMatchF fuel ('*' :: '*' :: q) rest)
    | '*' :: q, [] => globMatchF fuel q []
    | '*' :: q, c :: rest =>
      globMatchF fuel q s || (decide (c ≠ '/') && globMatchF fuel ('*' :: q) rest)
    | _ :: _, [] => false
    | c :: q, d :: rest => decide (c = d) && globMatchF fuel q rest

/-- Whether `pattern` matches `url` (fuel large enough for every branch that
can succeed: each step consumes pattern or url). -/
def globMatches (pattern url : String) : Bool :=
  globMatchF ((pattern.length + url.length) * 2 + 2) pattern.data url.data

/-- A registered interception rule: URL pattern and handler; the handler is
a function of the request method (the only request attribute the handlers in
`record_demo.py` inspect). -/
structure MockRule where
  pattern : String
  responder : String → RouteAction

/-- Modelled from the spec: the dispatch engine of the Network Interception
Router (the pattern matcher of the browser-automation library, not under
`src/`): rules are evaluated in registration order against the outgoing
request URL, the first matching rule's responder answers, and a request
matching no pattern proceeds to the real network. -/
def dispatch (rules : List MockRule) (method url : String) : RouteAction :=
  match rules with
  | [] => RouteAction.continueReal
  | r :: rest => if globMatches r.pattern url then r.responder method else dispatch rest method url

/-- Stands for the canned simulator-status JSON payload of `handle_status`
(the body text is never consulted by a routing decision). -/
def statusBody : String := "simulator-status-json"

/-- Stands for the canned reload payload of the `**/api/services/reload`
lambda. -/
def reloadBody : String := "reload-json"

/-- Stands for the canned services-list JSON payload of `handle_services`. -/
def servicesBody : String := "services-list-json"

/-- Stands for the canned logs JSON payload of `handle_logs`. -/
def logsBody : String := "logs-json"

/-- Stands for the canned IoT twins JSON payload of `handle_twins`. -/
def twinsBody : String := "iot-twins-json"

/-- Stands for the canned marketplace JSON payload of `handle_marketplace`. -/
def marketplaceBody : String := "marketplace-json"

/-- Stands for the canned AI-config JSON payload of the `**/api/ai/config`
lambda. -/
def aiConfigBody : String := "ai-config-json"

/-- Stands for the generic success payload of `handle_generic`
(`{"success": true, "data": {}}`). -/
def genericBody : String := "generic-success-json"

/-- Handler `handle_status`: fulfills with the status payload for every method. -/
def handle_status : String → RouteAction :=
  fun _ => RouteAction.fulfill 200 statusBody

/-- The `**/api/services/reload` lambda: fulfills for every method. -/
def handle_reload : String → RouteAction :=
  fun _ => RouteAction.fulfill 200 reloadBody

/-- Handler `handle_services`: fulfills the services list for GET, passes every
other method through to the real network (`route.continue_()`). -/
def handle_services : String → RouteAction :=
  fun method => if method = "GET" then RouteAction.fulfill 200 servicesBody
                else RouteAction.continueReal

/-- Handler `handle_logs`: fulfills for every method. -/
def handle_logs : String → RouteAction :=
  fun _ => RouteAction.fulfill 200 logsBody

/-- Handler `handle_twins`: fulfills for every method. -/
def handle_twins : String → RouteAction :=
  fun _ => RouteAction.fulfill 200 twinsBody

/-- Handler `handle_marketplace`: fulfills for every method. -/
def handle_marketplace : String → RouteAction :=
  fun _ => RouteAction.fulfill 200 marketplaceBody

/-- The `**/api/ai/config` lambda: fulfills for every method. -/
def handle_ai_config : String → RouteAction :=
  fun _ => RouteAction.fulfill 200 aiConfigBody

/-- Handler `handle_generic`: generic success for POST/PUT/DELETE, pass-through for
everything else. -/
def handle_generic : String → RouteAction :=
  fun method =>
    if method = "POST" ∨ method = "PUT" ∨ method = "DELETE" then
      RouteAction.fulfill 200 genericBody
    else RouteAction.continueReal

/-- The interception rules of `record_demo.py`, in registration order
(`page.route` calls, top to bottom). -/
def demoRules : List MockRule :=
  [⟨"**/status", handle_status⟩,
   ⟨"**/api/services/reload", handle_reload⟩,
   ⟨"**/api/services", handle_services⟩,
   ⟨"**/api/logs**", handle_logs⟩,
   ⟨"**/api/iot/twins", handle_twins⟩,
   ⟨"**/api/marketplace", handle_marketplace⟩,
   ⟨"**/api/ai/config", handle_ai_config⟩,
   ⟨"**/api/**", handle_generic⟩]

/-! ## Interaction driver (`record_demo.py`, `run`) -/

/-- The scripted interaction sequence inside the single `try` of `run`:
waits, hovers and sidebar clicks, each followed by its fixed settle delay. -/
def interactionSteps : List String :=
  ["wait_for_selector text=Simulator Status", "wait 2000",
   "hover service-card users-service", "wait 1000",
   "click sidebar-services", "wait 2000", "wait 1000",
   "click sidebar-iot", "wait 2000",
   "click sidebar-marketplace", "wait 2000",
   "click sidebar-recording", "wait 2000",
   "click sidebar-ai-generator", "wait 2000",
   "click sidebar-plugin-generator", "wait 2000",
   "click sidebar-contract-testing", "wait 2000",
   "click sidebar-code-generator", "wait 2000",
   "click sidebar-logs", "wait 2000",
   "click sidebar-configuration", "wait 2000",
   "click sidebar-dashboard", "wait 2000"]

/-- Run the interaction sequence: `fails i` says whether the i-th step
raises.  Steps run in order until the first failure (the single `except`
around the whole sequence); returns the number of steps attempted and
whether an exception occurred. -/
def runSteps (fails : Nat → Bool) : Nat → List String → Nat × Bool
  | _, [] => (0, false)
  | i, _ :: rest =>
    if fails i then (1, true)
    else
      let r := runSteps fails (i + 1) rest
      (r.1 + 1, r.2)

/-- What `run()` of `record_demo.py` leaves behind when it reaches the
interaction phase: steps attempted, whether the interaction `except` fired
(taking the `webui/error.png` screenshot), and the resource releases that
follow unconditionally. -/
structure DemoResult where
  stepsAttempted : Nat
  errorScreenshot : Bool
  contextClosed : Bool
  browserClosed : Bool
deriving Repr, DecidableEq

/-- How `run()` ends: the early `return` of the navigation `except` (which
closes the context first), or normal completion. -/
inductive DemoOutcome where
  | earlyReturn (contextClosed : Bool)
  | completed (r : DemoResult)
deriving Repr, DecidableEq

/-- Control flow of `run()` after the routes are registered: navigation
failure prints, closes the context and returns early; otherwise the
interaction sequence runs with its one catch-all handler, and the context
and browser are closed unconditionally afterwards. -/
def record_demo_run (navFails : Bool) (fails : Nat → Bool) : DemoOutcome :=
  if navFails then DemoOutcome.earlyReturn true
  else
    let r := runSteps fails 0 interactionSteps
    DemoOutcome.completed ⟨r.1, r.2, true, true⟩

/-! ## Helper lemmas -/

/-- Whether an operation's outcome makes it overwrite `TOKEN`
(with `r.token`, whatever that is). -/
def overwrites (op : OpDescr) (resp : Option Response) : Bool :=
  match op.update, resp with
  | TokenUpdate.setOn200or201, some r => decide (r.status_code = 200 ∨ r.status_code = 201)
  | TokenUpdate.setOn200, some r => decide (r.status_code = 200)
  | TokenUpdate.setIfTruthyOn200, some r => decide (r.status_code = 200) && truthy r.token
  | _, _ => false

theorem step_of_not_overwrites (tok : Option String) (op : OpDescr) (resp : Option Response)
    (h : overwrites op resp = false) : step tok op resp = tok := by
  rcases resp with _ | r
  · cases hu : op.update <;> simp [step, hu]
  · cases hu : op.update
    · simp [step, hu]
    · simp only [overwrites, hu, decide_eq_false_iff_not] at h
      simp [step, hu, h]
    · simp only [overwrites, hu, decide_eq_false_iff_not] at h
      simp [step, hu, h]
    · by_cases hs : r.status_code = 200
      · simp only [overwrites, hu] at h
        simp only [hs, decide_True, Bool.true_and] at h
        simp [step, hu, hs, h]
      · simp [step, hu, hs]

theorem step_of_overwrites (tok : Option String) (op : OpDescr) (r : Response)
    (h : overwrites op (some r) = true) : step tok op (some r) = r.token := by
  cases hu : op.update
  · simp [overwrites, hu] at h
  · simp only [overwrites, hu, decide_eq_true_eq] at h
    simp [step, hu, h]
  · simp only [overwrites, hu, decide_eq_true_eq] at h
    simp [step, hu, h]
  · simp only [overwrites, hu, Bool.and_eq_true, decide_eq_true_eq] at h
    simp [step, hu, h.1, h.2]

theorem length_runFrom (server : Server) (ops : List OpDescr) :
    ∀ (i : Nat) (tok : Option String), (runFrom server ops i tok).length = ops.length := by
  induction ops with
  | nil => intro i tok; rfl
  | cons op rest ih =>
    intro i tok
    simp only [runFrom, List.length_cons, ih]

theorem get_runFrom (server : Server) (ops : List OpDescr) :
    ∀ (j i : Nat) (tok : Option String) (h : j < ops.length),
      (runFrom server ops i tok).get ⟨j, by rw [length_runFrom]; exact h⟩
        = mkRecord (ops.get ⟨j, h⟩) (tokAt server j ops i tok) (server (i + j)) := by
  induction ops with
  | nil =>
    intro j i tok h
    exact absurd h (by simp)
  | cons op rest ih =>
    intro j i tok h
    cases j with
    | zero =>
      show mkRecord op tok (server i) = mkRecord op tok (server (i + 0))
      rfl
    | succ j =>
      have hr : j < rest.length := Nat.lt_of_succ_lt_succ h
      have := ih j (i + 1) (step tok op (server i)) hr
      show (runFrom server rest (i + 1) (step tok op (server i))).get
          ⟨j, by rw [length_runFrom]; exact hr⟩ = _
      rw [this]
      show mkRecord (rest.get ⟨j, hr⟩) _ (server (i + 1 + j))
        = mkRecord (rest.get ⟨j, hr⟩) _ (server (i + (j + 1)))
      rw [Nat.add_assoc, Nat.add_comm 1 j]
      rfl

theorem tokAt_step (server : Server) (ops : List OpDescr) :
    ∀ (k i : Nat) (tok : Option String) (h : k < ops.length),
      tokAt server (k + 1) ops i tok
        = step (tokAt server k ops i tok) (ops.get ⟨k, h⟩) (server (i + k)) := by
  induction ops with
  | nil =>
    intro k i tok h
    exact absurd h (by simp)
  | cons op rest ih =>
    intro k i tok h
    cases k with
    | zero => rfl
    | succ k =>
      have hr : k < rest.length := Nat.lt_of_succ_lt_succ h
      show tokAt server (k + 1) rest (i + 1) (step tok op (server i)) = _
      rw [ih k (i + 1) (step tok op (server i)) hr]
      show step _ (rest.get ⟨k, hr⟩) (server (i + 1 + k))
        = step _ (rest.get ⟨k, hr⟩) (server (i + (k + 1)))
      rw [Nat.add_assoc, Nat.add_comm 1 k]
      rfl

theorem tokAt_stable (server : Server) (ops : List OpDescr) (i : Nat) (tok : Option String)
    (m : Nat) :
    ∀ (j : Nat), m ≤ j → j ≤ ops.length →
      (∀ (k : Nat) (hk : k < ops.length), m ≤ k → k < j →
        overwrites (ops.get ⟨k, hk⟩) (server (i + k)) = false) →
      tokAt server j ops i tok = tokAt server m ops i tok := by
  intro j
  induction j with
  | zero =>
    intro hm _ _
    rw [Nat.le_zero.mp hm]
  | succ j ih =>
    intro hm hlen hquiet
    rcases Nat.lt_or_ge m (j + 1) with hlt | hge
    · have hmj : m ≤ j := Nat.lt_succ_iff.mp hlt
      have hj : j < ops.length := Nat.lt_of_lt_of_le (Nat.lt_succ_self j) hlen
      rw [tokAt_step server ops j i tok hj]
      rw [step_of_not_overwrites _ _ _ (hquiet j hj hmj (Nat.lt_succ_self j))]
      exact ih hmj (Nat.le_of_lt hj) (fun k hk hmk hkj => hquiet k hk hmk (Nat.lt_succ_of_lt hkj))
    · have : m = j + 1 := Nat.le_antisymm hm hge
      rw [this]

theorem waitPolls_success (probe : Probe) :
    ∀ (fuel i n : Nat), n < fuel → probe (i + n) = some 200 →
      (∀ k, k < n → probe (i + k) ≠ some 200) →
      waitPolls probe i fuel = (true, n + 1) := by
  intro fuel
  induction fuel with
  | zero =>
    intro i n hn
    exact absurd hn (Nat.not_lt_zero n)
  | succ fuel ih =>
    intro i n hn h200 hbefore
    cases n with
    | zero =>
      simp only [Nat.add_zero] at h200
      simp [waitPolls, h200]
    | succ n =>
      have hne : probe i ≠ some 200 := by
        have := hbefore 0 (Nat.succ_pos n)
        simpa using this
      have ihr := ih (i + 1) n (Nat.lt_of_succ_lt_succ hn)
        (by rw [Nat.add_assoc, Nat.add_comm 1 n]; exact h200)
        (fun k hk => by
          rw [Nat.add_assoc, Nat.add_comm 1 k]
          exact hbefore (k + 1) (Nat.succ_lt_succ hk))
      simp [waitPolls, hne, ihr]

theorem waitPolls_exhaust (probe : Probe) :
    ∀ (fuel i : Nat), (∀ k, k < fuel → probe (i + k) ≠ some 200) →
      waitPolls probe i fuel = (false, fuel) := by
  intro fuel
  induction fuel with
  | zero => intro i _; rfl
  | succ fuel ih =>
    intro i hall
    have hne : probe i ≠ some 200 := by
      have := hall 0 (Nat.succ_pos fuel)
      simpa using this
    have ihr := ih (i + 1) (fun k hk => by
      rw [Nat.add_assoc, Nat.add_comm 1 k]
      exact hall (k + 1) (Nat.succ_lt_succ hk))
    simp [waitPolls, hne, ihr]

theorem runExcFrom_eq_runFrom (server : Server) :
    ∀ (ops : List OpDescr) (i : Nat) (tok : Option String),
      (∀ (k : Nat) (hk : k < ops.length), opRaises (ops.get ⟨k, hk⟩) (server (i + k)) = false) →
      runExcFrom server ops i tok = (runFrom server ops i tok, false) := by
  intro ops
  induction ops with
  | nil => intro i tok _; rfl
  | cons op rest ih =>
    intro i tok hquiet
    have h0 : opRaises op (server i) = false := by
      have := hquiet 0 (Nat.succ_pos rest.length)
      simpa using this
    have ihr := ih (i + 1) (step tok op (server i)) (fun k hk => by
      rw [Nat.add_assoc, Nat.add_comm 1 k]
      exact hquiet (k + 1) (Nat.succ_lt_succ hk))
    simp [runExcFrom, runFrom, h0, ihr]

theorem dispatch_first_match :
    ∀ (rules : List MockRule) (method url : String) (k : Nat) (hk : k < rules.length),
      globMatches (rules.get ⟨k, hk⟩).pattern url = true →
      (∀ (l : Nat) (hl : l < rules.length), l < k →
        globMatches (rules.get ⟨l, hl⟩).pattern url = false) →
      dispatch rules method url = (rules.get ⟨k, hk⟩).responder method := by
  intro rules
  induction rules with
  | nil =>
    intro method url k hk
    exact absurd hk (by simp)
  | cons r rest ih =>
    intro method url k hk hmatch hbefore
    cases k with
    | zero =>
      have hm : globMatches r.pattern url = true := by simpa using hmatch
      simp [dispatch, hm]
    | succ k =>
      have hr : k < rest.length := Nat.lt_of_succ_lt_succ hk
      have h0 : globMatches r.pattern url = false := by
        have := hbefore 0 (Nat.succ_pos rest.length) (Nat.succ_pos k)
        simpa using this
      have ihr := ih method url k hr hmatch (fun l hl hlt => by
        have := hbefore (l + 1) (Nat.succ_lt_succ hl) (Nat.succ_lt_succ hlt)
        simpa using this)
      simp [dispatch, h0, ihr]

theorem dispatch_unmatched :
    ∀ (rules : List MockRule) (method url : String),
      (∀ (l : Nat) (hl : l < rules.length),
        globMatches (rules.get ⟨l, hl⟩).pattern url = false) →
      dispatch rules method url = RouteAction.continueReal := by
  intro rules
  induction rules with
  | nil => intro method url _; rfl
  | cons r rest ih =>
    intro method url hall
    have h0 : globMatches r.pattern url = false := by
      have := hall 0 (Nat.succ_pos rest.length)
      simpa using this
    have ihr := ih method url (fun l hl => by
      have := hall (l + 1) (Nat.succ_lt_succ hl)
      simpa using this)
    simp [dispatch, h0, ihr]

theorem runSteps_error_iff (fails : Nat → Bool) :
    ∀ (steps : List String) (i : Nat),
      (runSteps fails i steps).2 = true
        ↔ ∃ k, k < steps.length ∧ fails (i + k) = true := by
  intro steps
  induction steps with
  | nil =>
    intro i
    simp [runSteps]
  | cons a rest ih =>
    intro i
    by_cases h0 : fails i = true
    · simp only [runSteps]
      rw [if_pos h0]
      constructor
      · intro _
        exact ⟨0, Nat.succ_pos rest.length, by simpa using h0⟩
      · intro _
        rfl
    · simp only [runSteps]
      rw [if_neg h0]
      show (runSteps fails (i + 1) rest).2 = true ↔ _
      rw [ih (i + 1)]
      constructor
      · rintro ⟨k, hk, hf⟩
        refine ⟨k + 1, Nat.succ_lt_succ hk, ?_⟩
        rw [Nat.add_assoc, Nat.add_comm 1 k] at hf
        exact hf
      · rintro ⟨k, hk, hf⟩
        cases k with
        | zero =>
          rw [Nat.add_zero] at hf
          exact absurd hf h0
        | succ k =>
          refine ⟨k, Nat.lt_of_succ_lt_succ hk, ?_⟩
          rw [Nat.add_assoc, Nat.add_comm 1 k]
          exact hf

/-! ## Record accessor for the run trace -/

/-- Placeholder record (out-of-range accesses only). -/
def emptyRecord : OpRecord :=
  ⟨"", "", none, none, false⟩

theorem getD_runFrom (server : Server) (ops : List OpDescr) :
    ∀ (j i : Nat) (tok : Option String) (h : j < ops.length),
      (runFrom server ops i tok).getD j emptyRecord
        = mkRecord (ops.get ⟨j, h⟩) (tokAt server j ops i tok) (server (i + j)) := by
  induction ops with
  | nil =>
    intro j i tok h
    exact absurd h (by simp)
  | cons op rest ih =>
    intro j i tok h
    cases j with
    | zero =>
      show mkRecord op tok (server i) = mkRecord op tok (server (i + 0))
      rfl
    | succ j =>
      have hr : j < rest.length := Nat.lt_of_succ_lt_succ h
      show (runFrom server rest (i + 1) (step tok op (server i))).getD j emptyRecord = _
      rw [ih j (i + 1) (step tok op (server i)) hr]
      show mkRecord (rest.get ⟨j, hr⟩) _ (server (i + 1 + j))
        = mkRecord (rest.get ⟨j, hr⟩) _ (server (i + (j + 1)))
      rw [Nat.add_assoc, Nat.add_comm 1 j]
      rfl

/-- The j-th record of the run (the report line of the j-th `api_request`). -/
def recordAt (server : Server) (j : Nat) : OpRecord :=
  (theRun server).getD j emptyRecord

theorem recordAt_eq (server : Server) (j : Nat) (h : j < fullOps.length) :
    recordAt server j
      = mkRecord (fullOps.get ⟨j, h⟩) (tokAt server j fullOps 0 none) (server j) := by
  show (runFrom server fullOps 0 none).getD j emptyRecord = _
  rw [getD_runFrom server fullOps j 0 none h]
  rw [Nat.zero_add]

/-! ## Concrete environments used by witnesses and counterexamples -/

/-- A transport that always raises (connection refused). -/
def netDown : Net := fun _ _ _ _ => Except.error "Connection refused"

/-- A transport that always answers 200 with a parseable, token-free body. -/
def netOk : Net := fun _ _ _ _ => Except.ok ⟨200, none, true⟩

/-- A probe that answers 503 five times, then 200 (spec scenario). -/
def probe503 : Probe := fun i => if i < 5 then some 503 else some 200

/-- A probe whose endpoint never becomes ready. -/
def probeDead : Probe := fun _ => some 503

/-- A probe that is ready at once. -/
def probeUp : Probe := fun _ => some 200

/-- A server whose every response is 200 with a parseable token-free body. -/
def netOkServer : Server := fun _ => some ⟨200, none, true⟩

/-! ## C1 -/

/-- C1: for every method/endpoint/body/auth argument, a transport-level
failure inside `api_request` never propagates to the caller; the call
returns the failure outcome (`None`, falsy to every caller's
`if response` test) instead. -/
theorem transport_failure_never_raises (tok : Option String) (net : Net)
    (method endpoint : String) (data : Option String) (auth : Bool)
    (hfail : ∀ m u h d, ∃ msg, net m u h d = Except.error msg) :
    api_request tok net method endpoint data auth = none
      ∧ outcome_ok (api_request tok net method endpoint data auth) = false := by
  obtain ⟨msg, hmsg⟩ :
      ∃ msg, tryBlock net method (API_URL ++ endpoint) data (buildHeaders tok auth)
        = Except.error msg := by
    unfold tryBlock
    split
    · exact hfail _ _ _ _
    · split
      · exact hfail _ _ _ _
      · split
        · exact hfail _ _ _ _
        · split
          · exact hfail _ _ _ _
          · exact ⟨_, rfl⟩
  constructor
  · simp [api_request, hmsg]
  · simp [api_request, outcome_ok, hmsg]

/-- C1 witness: a connection-refused transport on `GET /health`. -/
theorem transport_failure_never_raises_witness :
    api_request none netDown "GET" "/health" none false = none
      ∧ outcome_ok (api_request none netDown "GET" "/health" none false) = false :=
  transport_failure_never_raises none netDown "GET" "/health" none false
    (fun _ _ _ _ => ⟨"Connection refused", rfl⟩)

/-! ## C6 -/

/-- C6: the request headers always carry the JSON content type; with
`auth=True` and a (truthy) session token the bearer header for that token is
added; with `auth=True` and no truthy token the headers carry no
authorization entry at all and the request is still dispatched to the
transport (no local short-circuit). -/
theorem executor_header_construction (tok : Option String) (auth : Bool) :
    (("Content-Type", "application/json") ∈ buildHeaders tok auth)
    ∧ (∀ t, tok = some t → truthy tok = true → auth = true →
        buildHeaders tok auth
          = [("Content-Type", "application/json"), ("Authorization", "Bearer " ++ t)])
    ∧ (truthy tok = false →
        buildHeaders tok auth = [("Content-Type", "application/json")])
    ∧ (auth = true → truthy tok = false → ∀ (net : Net) (endpoint : String),
        api_request tok net "GET" endpoint none auth
          = (net "GET" (API_URL ++ endpoint)
              [("Content-Type", "application/json")] none).toOption) := by
  refine ⟨?_, ?_, ?_, ?_⟩
  · unfold buildHeaders
    split <;> simp
  · intro t ht htr ha
    subst ht
    subst ha
    unfold buildHeaders
    rw [if_pos (by simp [htr])]
    simp
  · intro hnt
    unfold buildHeaders
    rw [if_neg (by simp [hnt])]
  · intro ha hnt net endpoint
    have hb : buildHeaders tok auth = [("Content-Type", "application/json")] := by
      unfold buildHeaders
      rw [if_neg (by simp [hnt])]
    unfold api_request tryBlock
    rw [if_pos rfl, hb]
    cases net "GET" (API_URL ++ endpoint) [("Content-Type", "application/json")] none <;> rfl

/-- C6 witness: no token held, `auth=True`: the `GET /api/auth/me` request
is still sent, with only the content-type header. -/
theorem executor_header_construction_witness :
    api_request none netOk "GET" "/api/auth/me" none true = some ⟨200, none, true⟩ :=
  ((executor_header_construction none true).2.2.2 rfl rfl netOk "/api/auth/me").trans rfl

/-! ## C9 -/

/-- C9 counterexample: calling the executor with method `"PATCH"` (with a
transport that would succeed) does not raise out of `api_request`: the
`ValueError` is raised inside the `try` block and caught by the executor's
own `except Exception` clause, and the caller receives the runtime failure
outcome `None` — the same outcome value a transport failure produces. -/
theorem unsupported_method_cex :
    tryBlock netOk "PATCH" (API_URL ++ "/api/services") none (buildHeaders none false)
      = Except.error ("Unsupported method: " ++ "PATCH")
    ∧ api_request none netOk "PATCH" "/api/services" none false = none
    ∧ outcome_ok (api_request none netOk "PATCH" "/api/services" none false) = false := by
  refine ⟨rfl, rfl, rfl⟩

/-- C9 amended: the executor dispatches exactly the four methods
GET/POST/PUT/DELETE to the transport; any other method raises a
`ValueError` inside the executor's own `try` block, which its blanket
`except` swallows, so the caller receives the failure outcome `None`, not
an exception. -/
theorem unsupported_method_swallowed (tok : Option String) (net : Net)
    (endpoint : String) (data : Option String) (auth : Bool) (method : String)
    (hg : method ≠ "GET") (hp : method ≠ "POST") (hu : method ≠ "PUT")
    (hd : method ≠ "DELETE") :
    tryBlock net method (API_URL ++ endpoint) data (buildHeaders tok auth)
      = Except.error ("Unsupported method: " ++ method)
    ∧ api_request tok net method endpoint data auth = none := by
  have htb : tryBlock net method (API_URL ++ endpoint) data (buildHeaders tok auth)
      = Except.error ("Unsupported method: " ++ method) := by
    unfold tryBlock
    rw [if_neg hg, if_neg hp, if_neg hu, if_neg hd]
  exact ⟨htb, by simp [api_request, htb]⟩

/-- C9 amended witness: method `"HEAD"` yields the `None` outcome. -/
theorem unsupported_method_swallowed_witness :
    api_request none netDown "HEAD" "/health" none false = none :=
  (unsupported_method_swallowed none netDown "/health" none false "HEAD"
    (by decide) (by decide) (by decide) (by decide)).2

/-! ## C3 -/

/-- C3: if the liveness endpoint first answers 200 on poll `n+1` (1-indexed,
within the budget), `wait_for_server` returns true after exactly `n+1` poll
attempts (hence at or before that poll); if no poll within the budget
answers 200 it returns false, `main` exits before any stage runs, and in
particular 503 for five polls then 200 yields true after exactly 6
attempts. -/
theorem readiness_first_200 :
    (∀ (probe : Probe) (timeout n : Nat), n < timeout → probe n = some 200 →
      (∀ k, k < n → probe k ≠ some 200) →
      waitPolls probe 0 timeout = (true, n + 1) ∧ wait_for_server probe timeout = true)
    ∧ (∀ (probe : Probe) (timeout : Nat), (∀ k, k < timeout → probe k ≠ some 200) →
      waitPolls probe 0 timeout = (false, timeout)
        ∧ wait_for_server probe timeout = false)
    ∧ (∀ (probe : Probe) (server : Server), (∀ k, k < 30 → probe k ≠ some 200) →
      main_exc probe server = MainOutcome.exitNotReady)
    ∧ waitPolls probe503 0 30 = (true, 6) := by
  refine ⟨?_, ?_, ?_, by decide⟩
  · intro probe timeout n hn h200 hbefore
    have h := waitPolls_success probe timeout 0 n hn
      (by rw [Nat.zero_add]; exact h200)
      (fun k hk => by rw [Nat.zero_add]; exact hbefore k hk)
    exact ⟨h, by unfold wait_for_server; rw [h]⟩
  · intro probe timeout hall
    have h := waitPolls_exhaust probe timeout 0
      (fun k hk => by rw [Nat.zero_add]; exact hall k hk)
    exact ⟨h, by unfold wait_for_server; rw [h]⟩
  · intro probe server hall
    have h := waitPolls_exhaust probe 30 0
      (fun k hk => by rw [Nat.zero_add]; exact hall k hk)
    unfold main_exc wait_for_server
    rw [h]
    rfl

/-- C3 witness: the 503-five-times probe reaches readiness; a
never-ready probe makes `main` exit with no stage executed. -/
theorem readiness_first_200_witness :
    wait_for_server probe503 30 = true
      ∧ main_exc probeDead netOkServer = MainOutcome.exitNotReady :=
  ⟨(readiness_first_200.1 probe503 30 5 (by decide) (by decide) (by decide)).2,
   readiness_first_200.2.2.1 probeDead netOkServer (by decide)⟩

/-! ## C2 -/

/-- An auth-bearing operation (register/login/refresh) that succeeded with a
usable (truthy) token field in its response. -/
def usableAuthSuccess (op : OpDescr) (resp : Option Response) : Bool :=
  match resp with
  | some r =>
      decide (op.update ≠ TokenUpdate.keep) && decide (r.status_code ∈ op.accept)
        && truthy r.token
  | none => false

/-- Claim C2 as stated: (a) after an auth operation succeeds with usable
token `T`, every later auth-required operation carries `Bearer T` as long as
no intermediate auth operation succeeded with a usable new token; and
(b) an auth response without a usable token field never changes the session
token. -/
def tokenPropagationClaim : Prop :=
  (∀ (server : Server) (i j : Nat) (hi : i < fullOps.length) (hj : j < fullOps.length),
    i < j →
    ∀ (r : Response), server i = some r →
    usableAuthSuccess (fullOps.get ⟨i, hi⟩) (some r) = true →
    (∀ (k : Nat) (hk : k < fullOps.length), i < k → k < j →
      usableAuthSuccess (fullOps.get ⟨k, hk⟩) (server k) = false) →
    (fullOps.get ⟨j, hj⟩).auth = true →
    (recordAt server j).authHeader = some ("Bearer " ++ r.token.getD ""))
  ∧ (∀ (tok : Option String) (op : OpDescr) (r : Response),
      op.update ≠ TokenUpdate.keep → r.status_code ∈ op.accept →
      truthy r.token = false → step tok op (some r) = tok)

/-- C2 counterexample: a login answer `200` whose body has no token field
overwrites the session token (here `"abc"` becomes `None`), so part (b) of
the claim is false on the code — register and login store
`data.get("token")` unconditionally on success; only refresh guards. -/
theorem token_propagation_cex : ¬ tokenPropagationClaim := by
  intro h
  have hb := h.2 (some "abc") loginOp ⟨200, none, true⟩
    (by decide) (by decide) (by decide)
  exact absurd hb (by decide)

/-- C2 amended: after an operation overwrites the session token with a
usable token `T` (an accepted-status register/login response with truthy
token field, or a refresh response with one), every later auth-required
operation carries `Authorization: Bearer T` until the next operation that
overwrites the token — where an accepted-status register/login response
overwrites it even when its token field is unusable. -/
theorem run_token_propagation (server : Server) (i j : Nat)
    (hi : i < fullOps.length) (hj : j < fullOps.length) (hij : i < j)
    (r : Response) (hr : server i = some r)
    (hover : overwrites (fullOps.get ⟨i, hi⟩) (some r) = true)
    (T : String) (hT : r.token = some T) (htr : truthy r.token = true)
    (hquiet : ∀ (k : Nat) (hk : k < fullOps.length), i < k → k < j →
      overwrites (fullOps.get ⟨k, hk⟩) (server k) = false)
    (hauth : (fullOps.get ⟨j, hj⟩).auth = true) :
    (recordAt server j).authHeader = some ("Bearer " ++ T) := by
  have htr2 : truthy (some T) = true := by rw [hT] at htr; exact htr
  have hstepi : tokAt server (i + 1) fullOps 0 none = some T := by
    rw [tokAt_step server fullOps i 0 none hi]
    rw [Nat.zero_add, hr, step_of_overwrites _ _ _ hover, hT]
  have htok : tokAt server j fullOps 0 none = some T := by
    rw [tokAt_stable server fullOps 0 none (i + 1) j hij (Nat.le_of_lt hj)
      (fun k hk hik hkj => by
        rw [Nat.zero_add]
        exact hquiet k hk hik hkj)]
    exact hstepi
  rw [recordAt_eq server j hj]
  show (buildHeaders (tokAt server j fullOps 0 none)
    (fullOps.get ⟨j, hj⟩).auth).lookup "Authorization" = _
  rw [htok, hauth]
  show (buildHeaders (some T) true).lookup "Authorization" = _
  unfold buildHeaders
  rw [if_pos (by simp [htr2])]
  rfl

/-- A run in which register answers 200 with token `"abc"`, and every other
request is rejected with 401. -/
def serverC2 : Server :=
  fun n => if n = 1 then some ⟨200, some "abc", true⟩ else some ⟨401, none, true⟩

/-- C2 amended witness: register (index 1) yields token `"abc"`; login
(index 2) fails with 401; the `GET /api/auth/me` request (index 3) carries
`Authorization: Bearer abc`. -/
theorem run_token_propagation_witness :
    (recordAt serverC2 3).authHeader = some ("Bearer " ++ "abc") :=
  run_token_propagation serverC2 1 3 (by decide) (by decide) (by decide)
    ⟨200, some "abc", true⟩ (by decide) (by decide) "abc" (by decide) (by decide)
    (by decide) (by decide)

/-! ## C10 -/

/-- C10: an accepted-status register/login response whose token field is
absent or empty overwrites the session token with that unusable value
(register and login store `data.get("token")` unconditionally on success),
so — until some later operation overwrites the token again — every
subsequent auth-required request is sent with no `Authorization` header;
only refresh guards, preserving the previous token when its response lacks
a usable token field. -/
theorem run_token_cleared (server : Server) (i j : Nat)
    (hi : i < fullOps.length) (hj : j < fullOps.length) (hij : i < j)
    (r : Response) (hr : server i = some r)
    (hover : overwrites (fullOps.get ⟨i, hi⟩) (some r) = true)
    (hnt : truthy r.token = false)
    (hquiet : ∀ (k : Nat) (hk : k < fullOps.length), i < k → k < j →
      overwrites (fullOps.get ⟨k, hk⟩) (server k) = false) :
    tokAt server (i + 1) fullOps 0 none = r.token
    ∧ (recordAt server j).authHeader = none
    ∧ (∀ (tok : Option String) (r2 : Response), r2.status_code = 200 →
        truthy r2.token = false → step tok refreshOp (some r2) = tok) := by
  have hstepi : tokAt server (i + 1) fullOps 0 none = r.token := by
    rw [tokAt_step server fullOps i 0 none hi]
    rw [Nat.zero_add, hr, step_of_overwrites _ _ _ hover]
  have htok : tokAt server j fullOps 0 none = r.token := by
    rw [tokAt_stable server fullOps 0 none (i + 1) j hij (Nat.le_of_lt hj)
      (fun k hk hik hkj => by
        rw [Nat.zero_add]
        exact hquiet k hk hik hkj)]
    exact hstepi
  refine ⟨hstepi, ?_, ?_⟩
  · rw [recordAt_eq server j hj]
    show (buildHeaders (tokAt server j fullOps 0 none)
      (fullOps.get ⟨j, hj⟩).auth).lookup "Authorization" = none
    rw [htok]
    unfold buildHeaders
    rw [if_neg (by simp [hnt])]
    rfl
  · intro tok r2 hs hnt2
    show step tok refreshOp (some r2) = tok
    unfold step
    show (if r2.status_code = 200 then
      (if truthy r2.token = true then r2.token else tok) else tok) = tok
    rw [if_pos hs, if_neg (by simp [hnt2])]

/-- A run in which register answers 200 with a body lacking any token
field, and every other request is rejected with 401. -/
def serverC10 : Server :=
  fun n => if n = 1 then some ⟨200, none, true⟩ else some ⟨401, none, true⟩

/-- C10 witness: register (index 1) succeeds with no token field; the
session token becomes `None` and the `GET /api/auth/me` request (index 3)
carries no `Authorization` header. -/
theorem run_token_cleared_witness :
    tokAt serverC10 2 fullOps 0 none = none
      ∧ (recordAt serverC10 3).authHeader = none :=
  ⟨(run_token_cleared serverC10 1 3 (by decide) (by decide) (by decide)
      ⟨200, none, true⟩ (by decide) (by decide) (by decide) (by decide)).1,
   (run_token_cleared serverC10 1 3 (by decide) (by decide) (by decide)
      ⟨200, none, true⟩ (by decide) (by decide) (by decide) (by decide)).2.1⟩

/-! ## C4 -/

/-- C4: a failing service-create (status 409 at request index 6) does not
prevent the dependent start/status/stop requests (indices 8, 9, 10) or the
`DELETE /api/services/test-service` request (index 16) from being issued:
each of their records carries the server's outcome at its own index, the
delete record really is the DELETE of the test service, and the delete's
recorded verdict depends only on the delete's own outcome. -/
theorem create_failure_not_blocking (server : Server) (r6 : Response)
    (h6 : server 6 = some r6) (h409 : r6.status_code = 409) :
    (recordAt server 6).passed = false
    ∧ (theRun server).length = 18
    ∧ (recordAt server 8).response = server 8
    ∧ (recordAt server 9).response = server 9
    ∧ (recordAt server 10).response = server 10
    ∧ (recordAt server 16).response = server 16
    ∧ (recordAt server 16).method = "DELETE"
    ∧ (recordAt server 16).endpoint = "/api/services/test-service"
    ∧ (∀ (server2 : Server), server2 16 = server 16 →
        (recordAt server2 16).passed = (recordAt server 16).passed) := by
  refine ⟨?_, ?_, ?_, ?_, ?_, ?_, ?_, ?_, ?_⟩
  · rw [recordAt_eq server 6 (by decide), h6]
    show decide (r6.status_code ∈ createServiceOp.accept) = false
    rw [h409]
    rfl
  · show (runFrom server fullOps 0 none).length = 18
    rw [length_runFrom]
    rfl
  · rw [recordAt_eq server 8 (by decide)]
    rfl
  · rw [recordAt_eq server 9 (by decide)]
    rfl
  · rw [recordAt_eq server 10 (by decide)]
    rfl
  · rw [recordAt_eq server 16 (by decide)]
    rfl
  · rw [recordAt_eq server 16 (by decide)]
    rfl
  · rw [recordAt_eq server 16 (by decide)]
    rfl
  · intro server2 hs
    rw [recordAt_eq server 16 (by decide), recordAt_eq server2 16 (by decide)]
    show (match server2 16 with
      | some r => decide (r.status_code ∈ deleteServiceOp.accept)
      | none => false)
      = (match server 16 with
      | some r => decide (r.status_code ∈ deleteServiceOp.accept)
      | none => false)
    rw [hs]

/-- A run in which every request, the create included, is answered 409. -/
def serverC4 : Server := fun _ => some ⟨409, none, true⟩

/-- C4 witness: with the create failing (409), the delete request is still
issued and its outcome recorded. -/
theorem create_failure_not_blocking_witness :
    (recordAt serverC4 6).passed = false
      ∧ (recordAt serverC4 16).response = serverC4 16
      ∧ (recordAt serverC4 16).method = "DELETE" :=
  ⟨(create_failure_not_blocking serverC4 ⟨409, none, true⟩ rfl rfl).1,
   (create_failure_not_blocking serverC4 ⟨409, none, true⟩ rfl rfl).2.2.2.2.2.1,
   (create_failure_not_blocking serverC4 ⟨409, none, true⟩ rfl rfl).2.2.2.2.2.2.1⟩

/-! ## C8 -/

/-- The destructive operations named by the spec: the delete, the service
stop, and the logout. -/
def isDestructive (op : OpDescr) : Bool :=
  decide (op.method = "DELETE")
    || decide (op.endpoint = "/api/services/test-service/stop")
    || decide (op.endpoint = "/api/auth/logout")

/-- Claim C8 as stated: every destructive operation is scheduled after
every non-destructive operation of the run sequence. -/
def destructiveLastClaim : Prop :=
  ∀ (i j : Fin fullOps.length),
    isDestructive (fullOps.get i) = true → isDestructive (fullOps.get j) = false →
    (j : Nat) < (i : Nat)

/-- C8 counterexample: the stop operation sits at index 10 of the fixed
sequence, before the non-destructive logs/recording/ai/codegen/config
requests (indices 11–15), so the destructive operations are not all
scheduled last. -/
theorem destructive_last_cex : ¬ destructiveLastClaim := by
  intro h
  have := h ⟨10, by decide⟩ ⟨11, by decide⟩ (by decide) (by decide)
  exact absurd this (by decide)

/-- C8 amended: the delete and logout of the cleanup stage are the final
two operations of the run, after every non-destructive operation; the stop
sits inside the service-management stage (index 10); and every operation —
the destructive ones included — is attempted regardless of earlier
outcomes: for every server behaviour the trace has all 18 records and the
j-th record carries the server's outcome at index j. -/
theorem cleanup_scheduled_last (server : Server) :
    fullOps.length = 18
    ∧ fullOps.get ⟨16, by decide⟩ = deleteServiceOp
    ∧ fullOps.get ⟨17, by decide⟩ = logoutOp
    ∧ fullOps.get ⟨10, by decide⟩ = stopServiceOp
    ∧ (∀ j : Fin fullOps.length, isDestructive (fullOps.get j) = false → (j : Nat) < 16)
    ∧ (theRun server).length = fullOps.length
    ∧ (∀ (j : Nat), j < fullOps.length → (recordAt server j).response = server j) := by
  refine ⟨rfl, rfl, rfl, rfl, by decide, ?_, ?_⟩
  · show (runFrom server fullOps 0 none).length = fullOps.length
    rw [length_runFrom]
  · intro j hj
    rw [recordAt_eq server j hj]
    rfl

/-- A server that rejects every request. -/
def serverC8 : Server := fun _ => some ⟨503, none, true⟩

/-- C8 amended witness: on an all-failing server the delete (index 16) is
still attempted and recorded. -/
theorem cleanup_scheduled_last_witness :
    (recordAt serverC8 16).response = some ⟨503, none, true⟩ :=
  (cleanup_scheduled_last serverC8).2.2.2.2.2.2 16 (by decide)

/-! ## C7 -/

/-- Claim C7 as stated: under no input and no server behaviour does an
error terminate the harness process other than the readiness exit (and, in
the browser variant, the navigation early-return). -/
def noCrashClaim : Prop :=
  ∀ (probe : Probe) (server : Server) (recs : List OpRecord),
    main_exc probe server ≠ MainOutcome.crashed recs

/-- A server whose every response is 200 with an unparseable body. -/
def serverBadJson : Server := fun _ => some ⟨200, none, false⟩

/-- C7 counterexample: a ready server answering the health check with
status 200 but an unparseable body makes `test_health` raise out of
`response.json()`; nothing in the stage functions or `main` catches it, so
the process is terminated at a third point, before any record is printed. -/
theorem no_crash_cex : ¬ noCrashClaim := by
  intro h
  exact h probeUp serverBadJson [] (by decide)

/-- C7 amended: no error terminates the process except the readiness exit,
the browser-variant navigation early-return, and an uncaught
body-processing exception (an accepted-status response whose body is
unparseable JSON).  The readiness exit happens exactly when no poll
succeeds; when every accepted response parses, the run always completes
with its full trace; navigation failure is exactly the early-return (the
context still closed); and an interaction failure is swallowed into the
diagnostic screenshot, after which context and browser are still closed. -/
theorem error_containment (probe : Probe) (server : Server) (navFails : Bool)
    (fails : Nat → Bool) :
    ((main_exc probe server = MainOutcome.exitNotReady)
        ↔ wait_for_server probe 30 = false)
    ∧ ((∀ (k : Nat) (hk : k < fullOps.length),
          opRaises (fullOps.get ⟨k, hk⟩) (server k) = false) →
        main_exc probe server = MainOutcome.exitNotReady
          ∨ main_exc probe server = MainOutcome.completed (theRun server))
    ∧ ((∃ c, record_demo_run navFails fails = DemoOutcome.earlyReturn c)
        ↔ navFails = true)
    ∧ (navFails = false →
        record_demo_run navFails fails
          = DemoOutcome.completed
              ⟨(runSteps fails 0 interactionSteps).1,
               (runSteps fails 0 interactionSteps).2, true, true⟩
          ∧ ((runSteps fails 0 interactionSteps).2 = true
              ↔ ∃ k, k < interactionSteps.length ∧ fails k = true)) := by
  refine ⟨?_, ?_, ?_, ?_⟩
  · by_cases hw : wait_for_server probe 30
    · unfold main_exc
      rw [if_pos hw]
      constructor
      · intro h
        have h2 : (if (runExcFrom server fullOps 0 none).2 = true
            then MainOutcome.crashed (runExcFrom server fullOps 0 none).1
            else MainOutcome.completed (runExcFrom server fullOps 0 none).1)
            = MainOutcome.exitNotReady := h
        cases hb : (runExcFrom server fullOps 0 none).2
        · rw [hb] at h2
          exact absurd h2 (by simp)
        · rw [hb] at h2
          exact absurd h2 (by simp)
      · intro h
        rw [hw] at h
        exact absurd h (by simp)
    · unfold main_exc
      rw [if_neg hw]
      simp only [eq_self_iff_true, true_iff]
      exact Bool.not_eq_true _ ▸ (by simpa using hw)
  · intro hquiet
    by_cases hw : wait_for_server probe 30
    · right
      have hb := runExcFrom_eq_runFrom server fullOps 0 none
        (fun k hk => by rw [Nat.zero_add]; exact hquiet k hk)
      unfold main_exc
      rw [if_pos hw, hb]
      rfl
    · left
      unfold main_exc
      rw [if_neg hw]
  · cases navFails
    · constructor
      · rintro ⟨c, hc⟩
        exact absurd hc (by simp [record_demo_run])
      · intro h
        exact absurd h (by simp)
    · constructor
      · intro _
        rfl
      · intro _
        exact ⟨true, rfl⟩
  · intro h
    subst h
    refine ⟨rfl, ?_⟩
    rw [runSteps_error_iff fails interactionSteps 0]
    constructor
    · rintro ⟨k, hk, hf⟩
      rw [Nat.zero_add] at hf
      exact ⟨k, hk, hf⟩
    · rintro ⟨k, hk, hf⟩
      exact ⟨k, hk, by rw [Nat.zero_add]; exact hf⟩

/-- C7 amended witness: with navigation succeeding and no interaction step
failing, `run()` completes, closing context and browser, with all 27
interaction steps attempted and no error screenshot. -/
theorem error_containment_witness :
    record_demo_run false (fun _ => false)
      = DemoOutcome.completed ⟨27, false, true, true⟩ :=
  (((error_containment probeUp netOkServer false (fun _ => false)).2.2.2 rfl).1).trans
    (by decide)

/-! ## C5 -/

/-- C5: over the rules registered by `record_demo.py`, the spec-modelled
dispatch selects by evaluating patterns in registration order with the
first match winning; a request matching no pattern proceeds to the real
network.  Concretely: `GET` on the services URL is answered by
`handle_services` (registered third) and not by the later-registered
catch-all `handle_generic`; a `POST` to the same URL falls through
`handle_services` to the pass-through; and a URL matching no registered
pattern goes to the network. -/
theorem mock_routing_order (method url : String) :
    (∀ (k : Nat) (hk : k < demoRules.length),
      globMatches (demoRules.get ⟨k, hk⟩).pattern url = true →
      (∀ (l : Nat) (hl : l < demoRules.length), l < k →
        globMatches (demoRules.get ⟨l, hl⟩).pattern url = false) →
      dispatch demoRules method url = (demoRules.get ⟨k, hk⟩).responder method)
    ∧ ((∀ (l : Nat) (hl : l < demoRules.length),
        globMatches (demoRules.get ⟨l, hl⟩).pattern url = false) →
      dispatch demoRules method url = RouteAction.continueReal)
    ∧ dispatch demoRules "GET" "http://localhost:9002/api/services"
        = RouteAction.fulfill 200 servicesBody
    ∧ dispatch demoRules "POST" "http://localhost:9002/api/services"
        = RouteAction.continueReal
    ∧ dispatch demoRules "GET" "http://localhost:9002/favicon.ico"
        = RouteAction.continueReal := by
  refine ⟨?_, ?_, by decide, by decide, by decide⟩
  · intro k hk hmatch hbefore
    exact dispatch_first_match demoRules method url k hk hmatch hbefore
  · intro hall
    exact dispatch_unmatched demoRules method url hall

/-- C5 witness: a `PUT` to the services URL is dispatched (first match, in
registration order) to `handle_services`, whose non-GET branch passes it
through — the later-registered generic catch-all does not take it. -/
theorem mock_routing_order_witness :
    dispatch demoRules "PUT" "http://localhost:9002/api/services"
      = RouteAction.continueReal :=
  ((mock_routing_order "PUT" "http://localhost:9002/api/services").1 2
    (by decide) (by decide) (by decide)).trans (by decide)
